import Mathlib

/-!
Shallow embedding of the tiered AI-response router with cost-guarding cache
from `server.ai-router.js` and `server-cost-guard.js`.

Modelling conventions:
* Confidence scores are JS number literals (0.3 … 0.95); they are embedded
  as natural numbers in hundredths (30 … 95).  Every comparison in the
  source (`confidence < 0.7`) is between literals that are multiples of
  0.05, so IEEE-754 rounding can never flip a comparison and the scaled
  integers are an exact model.
* `crypto.createHash('md5')…digest('hex')` is modelled as the identity
  fingerprint on the pre-hash string `normalized + optionsStr`; no claim
  relies on distinct pre-images colliding or not, only on the hash being a
  function, which the identity preserves.
* `options` objects appear in the code only through `JSON.stringify`, so an
  options value is embedded directly as its serialized string.
* Clock readings are threaded explicitly: `now : Nat` is `Date.now()` in
  milliseconds and `today : String` is `new Date().toDateString()`.
* JS template-literal stringification of the `input` argument
  (`` `${task}:${input}` `` in `route`) yields the string itself for a
  string and `"[object Object]"` for a plain object; `jsToString` embeds
  exactly that.
* Fallible JS code (a thrown exception) is embedded as `Except String`.
  Two ghost fields are added for observability only: `withBudget` also
  returns whether the wrapped operation was invoked, and `route`/`routeCore`
  also return how many model tiers (cheap/expensive) were attempted.  The
  ghost data never feeds back into any computed value.
-/

/-- A JS value as it matters for the `enabled` field: `config.AI_ENABLE`
is a boolean and `config.OPENAI_API_KEY` a string (see `index.js`), and
`AI_ENABLE && OPENAI_API_KEY` evaluates to one of these two shapes. -/
inductive JSVal where
  | bool (b : Bool)
  | str (s : String)
deriving Repr, DecidableEq

/-- JS truthiness for the two value shapes above: a boolean is its own
truth value, a string is truthy iff nonempty. -/
def JSVal.truthy : JSVal → Bool
  | .bool b => b
  | .str s => !(s == "")

/-- JS `a && b`: returns `a` when `a` is falsy, else `b`. -/
def jsAnd (a b : JSVal) : JSVal := if a.truthy then b else a

/-- JS `n || d` for numbers coming out of `parseInt`/object fields: `0`
(and an absent field, which the callers collapse to the same default) is
falsy, every other natural is itself. -/
def jsOr (n d : Nat) : Nat := if n = 0 then d else n

/-- JS `s || d` for an optional string field (`client.urgency || 'medium'`):
`undefined` and the empty string are falsy. -/
def jsOrStr (o : Option String) (d : String) : String :=
  match o with
  | none => d
  | some s => if s = "" then d else s

/-- Whether `sub` occurs at the head of `l`. -/
def startsWithSeg : List Char → List Char → Bool
  | [], _ => true
  | _ :: _, [] => false
  | a :: as, b :: bs => a == b && startsWithSeg as bs

/-- Whether `sub` occurs as a contiguous segment of `l`. -/
def hasSeg (sub : List Char) : List Char → Bool
  | [] => sub.isEmpty
  | b :: bs => startsWithSeg sub (b :: bs) || hasSeg sub bs

/-- JS `String.prototype.includes`: substring containment.  Embedded via
character lists; the source only ever tests fixed nonempty ASCII needles. -/
def strIncludes (s sub : String) : Bool :=
  hasSeg sub.toList s.toList

/-- JS `String.prototype.toLowerCase` for the ASCII queries the rules
compare (character-wise lowering). -/
def strToLower (s : String) : String :=
  String.mk (s.toList.map Char.toLower)

/-- JS `category.replace('-', ' ')`: rewrites the first dash; every FAQ
category holds at most one dash, so the character-wise map coincides. -/
def dashToSpace (s : String) : String :=
  String.mk (s.toList.map fun c => if c = '-' then ' ' else c)

/-- A client record as the triage/careplan rules read it: the source
accesses `client.needs`, `client.urgency`, `client.householdSize`, each
defaulted with `||` when absent. -/
structure ClientRec where
  needs : Option (List String) := none
  urgency : Option String := none
  householdSize : Option Nat := none
deriving Repr, DecidableEq

/-- The second argument of `route`: the web layer passes a free-text query
string for `navigator` and a client record object for `triage`/`careplan`
(`server-routes.js` lines 124, 261, 282). -/
inductive RouteInput where
  | str (s : String)
  | client (c : ClientRec)
deriving Repr, DecidableEq

/-- JS template-literal stringification of the input inside
`` `${task}:${input}` `` (`server.ai-router.js` line 53): a string is
itself; a plain object stringifies as `"[object Object]"`. -/
def jsToString : RouteInput → String
  | .str s => s
  | .client _ => "[object Object]"

/-- A result object as produced by the tiers and fallbacks.  All fields
appearing on any result constructed by the source are present as options
(absent field = `none`); `confidence` is always set by every constructor
in the source, so it is a plain scaled natural; `uncertain` defaults to
the falsy absent value.  `reviewDate` holds the raw epoch-milliseconds
timestamp whose ISO rendering the source stores (the rendering is an
injective function of the timestamp and is not inspected anywhere). -/
structure RouteResult where
  response : Option String := none
  category : Option String := none
  priority : Option String := none
  recommendations : Option (List String) := none
  nextSteps : Option (List String) := none
  goals : Option (List String) := none
  tasks : Option (List String) := none
  resources : Option (List String) := none
  timeline : Option String := none
  reviewDate : Option Nat := none
  customizable : Bool := false
  tokens : Option Nat := none
  uncertain : Bool := false
  confidence : Nat := 0
  source : Option String := none
deriving Repr, DecidableEq

/-- `this.stats` of `CostGuard` (`server-cost-guard.js` lines 6-14). -/
structure Stats where
  cacheHits : Nat := 0
  cacheMisses : Nat := 0
  cheapCalls : Nat := 0
  expensiveCalls : Nat := 0
  totalTokens : Nat := 0
  dailyTokens : Nat := 0
  lastResetDate : String := ""
deriving Repr, DecidableEq

/-- The stats object at construction time (`new Date().toDateString()`
is the construction date). -/
def initialStats (today : String) : Stats := { lastResetDate := today }

/-- `this.config` of `CostGuard` after the constructor merge
(`server-cost-guard.js` lines 15-21); the application config from
`index.js` carries none of these four keys, so the defaults shown are the
effective values there, but the theorems quantify over arbitrary merges. -/
structure GuardConfig where
  maxDailyTokens : Nat := 10000
  maxCheapTokens : Nat := 256
  maxExpensiveTokens : Nat := 512
  defaultTTL : Nat := 3600
deriving Repr, DecidableEq

/-- One cache slot: `{ data, expiry }` (`server-cost-guard.js` line 48). -/
structure CacheEntry where
  data : RouteResult
  expiry : Nat
deriving Repr, DecidableEq

/-- The `Map` cache, as an association list with most-recent binding first;
`cacheSet` removes any older binding for the key so lookups and sizes
agree with `Map` semantics. -/
abbrev Cache := List (String × CacheEntry)

/-- Cache plus counters: the mutable state of the cost guard. -/
structure GuardState where
  cache : Cache
  stats : Stats
deriving Repr, DecidableEq

/-- Guard state at construction time. -/
def emptyGuardState (today : String) : GuardState :=
  { cache := [], stats := initialStats today }

/-- `hashRequest` (`server-cost-guard.js` lines 25-29) as called from
`route`: the input is always a string there (the template literal), so the
`typeof` branch picks it unchanged, md5 modelled as the identity. -/
def hashRequest (input : String) (optionsStr : String) : String :=
  input ++ optionsStr

/-- The cache key `route` computes (`server.ai-router.js` line 53). -/
def routeCacheKey (task : String) (input : RouteInput) (optionsStr : String) : String :=
  hashRequest (task ++ ":" ++ jsToString input) optionsStr

/-- `cacheGet` (`server-cost-guard.js` lines 32-43): a live entry is a hit;
an expired entry is deleted and counted as a miss; absence is a miss. -/
def cacheGet (st : GuardState) (now : Nat) (key : String) :
    Option RouteResult × GuardState :=
  match st.cache.lookup key with
  | some e =>
      if e.expiry > now then
        (some e.data, { st with stats := { st.stats with cacheHits := st.stats.cacheHits + 1 } })
      else
        (none, { st with
                 cache := st.cache.filter fun p => !(p.1 == key)
                 stats := { st.stats with cacheMisses := st.stats.cacheMisses + 1 } })
  | none =>
      (none, { st with stats := { st.stats with cacheMisses := st.stats.cacheMisses + 1 } })

/-- `cacheSet` (`server-cost-guard.js` lines 46-52): overwrite with expiry
`now + ttl*1000`, the ttl defaulting through JS `||`. -/
def cacheSet (gcfg : GuardConfig) (st : GuardState) (key : String)
    (data : RouteResult) (ttlSeconds : Nat) (now : Nat) : GuardState :=
  let ttl := jsOr ttlSeconds gcfg.defaultTTL
  { st with cache :=
      (key, { data := data, expiry := now + ttl * 1000 }) ::
        st.cache.filter (fun p => !(p.1 == key)) }

/-- `resetDailyCountersIfNeeded` (`server-cost-guard.js` lines 72-78). -/
def resetDailyCountersIfNeeded (st : Stats) (today : String) : Stats :=
  if st.lastResetDate ≠ today then
    { st with dailyTokens := 0, lastResetDate := today }
  else st

/-- `canMakeCall` (`server-cost-guard.js` lines 81-97), returning the
decision together with the (possibly reset) stats it leaves behind. -/
def canMakeCall (gcfg : GuardConfig) (st : Stats) (today : String)
    (tokenCount : Nat) (type : String) : Bool × Stats :=
  let st1 := resetDailyCountersIfNeeded st today
  if st1.dailyTokens + tokenCount > gcfg.maxDailyTokens then
    (false, st1)
  else
    let maxTokens := if type = "expensive" then gcfg.maxExpensiveTokens else gcfg.maxCheapTokens
    if tokenCount > maxTokens then (false, st1) else (true, st1)

/-- The message of the `Budget exceeded` error (`server-cost-guard.js`
line 102), built from the post-reset usage as the source reads it. -/
def budgetErrorMsg (gcfg : GuardConfig) (st : Stats) (label : String) : String :=
  "Budget exceeded for " ++ label ++ ". Daily limit: " ++
    toString gcfg.maxDailyTokens ++ ", used: " ++ toString st.dailyTokens

/-- `withBudget` (`server-cost-guard.js` lines 100-123).  The wrapped
async operation is embedded by its outcome `fn`; the source operations
passed here (the two mock model calls) are pure.  The trailing `Bool` is a
ghost flag: `true` iff the operation was invoked.  On the success path the
usage counters and the per-tier call counter are credited; on either
failure path (budget rejection, or the operation throwing, which the
source logs and rethrows) the stats beyond the lazy reset are untouched. -/
def withBudget (gcfg : GuardConfig) (st : Stats) (today : String)
    (label : String) (fn : Except String RouteResult)
    (estimatedTokens : Nat) (type : String) :
    Except String RouteResult × Stats × Bool :=
  match canMakeCall gcfg st today estimatedTokens type with
  | (false, st1) => (.error (budgetErrorMsg gcfg st1 label), st1, false)
  | (true, st1) =>
      match fn with
      | .error e => (.error e, st1, true)
      | .ok r =>
          let st2 := { st1 with
            totalTokens := st1.totalTokens + estimatedTokens
            dailyTokens := st1.dailyTokens + estimatedTokens }
          let st3 :=
            if type = "expensive" then { st2 with expensiveCalls := st2.expensiveCalls + 1 }
            else { st2 with cheapCalls := st2.cheapCalls + 1 }
          (.ok r, st3, true)

/-- The router-relevant configuration keys as `index.js` builds them and
`AIRouter`/`CostGuard` read them.  `AI_ENABLE` is a genuine boolean
(`process.env.AI_ENABLE === 'true'`), the credential a string (default
empty).  The token maxima are optional because `AIRouter` forwards
`config.AI_MAX_TOKENS_CHEAP` into `withBudget`, whose JS default
parameter `estimatedTokens = 100` applies exactly when the key is
`undefined` (not when it is 0). -/
structure RouterConfig where
  AI_ENABLE : Bool := false
  OPENAI_API_KEY : String := ""
  CACHE_TTL_FAQ : Nat := 0
  CACHE_TTL_TRIAGE : Nat := 0
  AI_MAX_TOKENS_CHEAP : Option Nat := none
  AI_MAX_TOKENS_EXPENSIVE : Option Nat := none
deriving Repr, DecidableEq

/-- `this.enabled = config.AI_ENABLE && config.OPENAI_API_KEY`
(`server.ai-router.js` line 7): JS `&&` over a boolean and a string, so
the stored value is the boolean `false` or the key string itself. -/
def routerEnabledVal (cfg : RouterConfig) : JSVal :=
  jsAnd (.bool cfg.AI_ENABLE) (.str cfg.OPENAI_API_KEY)

/-- Truthiness of `this.enabled`, as every `if (... this.enabled)` in the
router reads it. -/
def routerEnabled (cfg : RouterConfig) : Bool :=
  (routerEnabledVal cfg).truthy

/-- `this.faqRules` (`server.ai-router.js` lines 10-21), in object
insertion order, which `Object.entries` preserves. -/
def faqRules : List (String × String) :=
  [("housing", "For housing assistance, you may qualify for rapid rehousing, emergency shelter, or rental assistance. Eligibility typically requires proof of homelessness or housing instability."),
   ("employment", "Employment services include job training, resume help, and placement assistance. Most programs are free and available regardless of work history."),
   ("mental-health", "Mental health services include counseling, crisis support, and medication assistance. Many services are available on a sliding scale."),
   ("veterans", "Veterans have access to specialized housing, healthcare, and employment programs through VA and community partners."),
   ("substance-abuse", "Substance abuse support includes outpatient counseling, residential treatment, and harm reduction services."),
   ("medical", "Medical services include free clinics, insurance enrollment, and specialty care referrals."),
   ("food", "Food assistance includes food banks, CalFresh (SNAP), and meal programs at community centers."),
   ("legal", "Legal aid includes help with housing court, benefits appeals, and family law matters."),
   ("utilities", "Utility assistance programs can help with past-due bills and ongoing payment support."),
   ("transportation", "Transportation help includes bus passes, rides to appointments, and vehicle repair assistance.")]

/-- `this.triageRules` as assigned in the constructor
(`server.ai-router.js` lines 23-30): a plain lookup-table object.  Because
instance properties shadow prototype methods in JS, this assignment hides
the `triageRules` method below, which is what makes the `triage` branch of
`tryRulesFirst` throw.  The table itself is never read anywhere. -/
def triageRulesTable : List (String × String) :=
  [("high-housing", "Immediate housing placement or emergency shelter referral needed within 24-48 hours."),
   ("high-medical", "Schedule urgent medical appointment and assist with insurance enrollment."),
   ("high-mental-health", "Crisis assessment and immediate mental health referral required."),
   ("medium-housing", "Housing assessment and waitlist placement, follow up within 1 week."),
   ("medium-employment", "Job readiness assessment and skills training referral."),
   ("low-general", "Resource information and self-service options, follow up in 2 weeks.")]

/-- One care-plan template (`server.ai-router.js` lines 32-48). -/
structure CareTemplate where
  goals : List String
  tasks : List String
  resources : List String
deriving Repr, DecidableEq

def housingFocused : CareTemplate :=
  { goals := ["Secure stable housing within 90 days", "Maintain housing stability"]
    tasks := ["Complete housing application", "Gather required documents", "Attend housing appointments"]
    resources := ["Rapid Rehousing Program", "Housing Authority waitlist", "Emergency rental assistance"] }

def employmentFocused : CareTemplate :=
  { goals := ["Obtain sustainable employment", "Increase job skills"]
    tasks := ["Update resume", "Apply for job training", "Attend job interviews"]
    resources := ["WorkForce Development", "One-Stop Career Center", "Skills training programs"] }

def healthFocused : CareTemplate :=
  { goals := ["Establish primary care", "Manage chronic conditions"]
    tasks := ["Schedule medical appointment", "Apply for health insurance", "Follow medication schedule"]
    resources := ["Community Health Center", "Medi-Cal enrollment", "Pharmacy assistance"] }

/-- The greeting response of `navigatorRules` (lines 121-128). -/
def navigatorGreetingResult : RouteResult :=
  { response := some "I can help you understand what services are available. What kind of help do you need? I can assist with housing, employment, healthcare, food, or other services."
    confidence := 80
    source := some "rules"
    category := some "general" }

/-- The uncertainty marker `navigatorRules` returns for unmatched queries
(lines 131-135). -/
def navigatorUncertainResult : RouteResult :=
  { uncertain := true
    confidence := 40
    response := some "I\x27d like to help you find the right resources. Could you tell me more specifically what kind of assistance you\x27re looking for?" }

/-- First FAQ category whose keyword (or its dash-to-space variant; JS
`replace('-', ' ')` rewrites the first occurrence and every category holds
at most one dash) occurs in the lower-cased query (lines 109-118). -/
def navigatorMatch (query : String) : Option (String × String) :=
  faqRules.find? fun p =>
    strIncludes query p.1 || strIncludes query (dashToSpace p.1)

/-- `navigatorRules` (`server.ai-router.js` lines 105-136).  Called with an
object input (which `route` permits), `input.toLowerCase` is not a
function and the source throws; called with a string it never throws. -/
def navigatorRules (input : RouteInput) : Except String RouteResult :=
  match input with
  | .client _ => .error "input.toLowerCase is not a function"
  | .str s =>
    let query := strToLower s
    match navigatorMatch query with
    | some (category, response) =>
        .ok { response := some response
              confidence := 90
              source := some "rules"
              category := some category }
    | none =>
        if strIncludes query "help" || strIncludes query "hello" || strIncludes query "start" then
          .ok navigatorGreetingResult
        else
          .ok navigatorUncertainResult

/-- The urgent-housing assessment (`server.ai-router.js` lines 146-156). -/
def triageUrgentHousingResult : RouteResult :=
  { priority := some "urgent"
    recommendations := some
      ["Emergency shelter placement needed within 24 hours",
       "Rapid rehousing assessment required",
       "Connect with housing navigator immediately"]
    nextSteps := some
      ["Schedule emergency housing meeting", "Gather housing documents", "Contact emergency shelter"]
    confidence := 95
    source := some "rules" }

/-- The urgent safety-focused assessment (lines 160-170). -/
def triageUrgentSafetyResult : RouteResult :=
  { priority := some "urgent"
    recommendations := some
      ["Crisis assessment required", "Mental health evaluation needed", "Safety planning essential"]
    nextSteps := some
      ["Schedule crisis assessment", "Provide crisis hotline numbers", "Create safety plan"]
    confidence := 95
    source := some "rules" }

/-- The per-need recommendation pushed in the medium-priority loop
(lines 178-193); unrecognized needs contribute nothing. -/
def triageNeedRecommendation (need : String) : List String :=
  if need = "housing" then ["Housing assessment and application"]
  else if need = "employment" then ["Job readiness assessment"]
  else if need = "medical" then ["Healthcare enrollment assistance"]
  else []

/-- The per-need next step pushed in the medium-priority loop. -/
def triageNeedNextStep (need : String) : List String :=
  if need = "housing" then ["Complete housing intake form"]
  else if need = "employment" then ["Schedule employment counseling"]
  else if need = "medical" then ["Schedule medical intake appointment"]
  else []

/-- The `triageRules` *prototype method* (`server.ai-router.js` lines
138-202).  In the running program this method is unreachable: the
constructor's `this.triageRules` table shadows it (see
`triageRulesTable`), so `tryRulesFirst` never gets to call it.  It is
embedded to state what the source intended the triage rules tier to
compute.  `householdSize` is read into a local in the source but never
used. -/
def triageRules (client : ClientRec) : RouteResult :=
  let needs := client.needs.getD []
  let urgency := jsOrStr client.urgency "medium"
  if (urgency = "high" || urgency = "critical") && needs.contains "housing" then
    triageUrgentHousingResult
  else if (urgency = "high" || urgency = "critical") &&
      (needs.contains "mental-health" || needs.contains "substance-abuse") then
    triageUrgentSafetyResult
  else
    { priority := some urgency
      recommendations := some (needs.flatMap triageNeedRecommendation)
      nextSteps := some (needs.flatMap triageNeedNextStep)
      confidence := 80
      source := some "rules" }

/-- `careplanRules` (`server.ai-router.js` lines 204-227).  A string input
contributes no `needs` field (property access on a string yields
`undefined`, defaulted to `[]`).  The review date is 30 days of
milliseconds past `now`. -/
def careplanRules (now : Nat) (input : RouteInput) : RouteResult :=
  let needs := match input with
    | .client c => c.needs.getD []
    | .str _ => []
  let primaryNeed := jsOrStr needs.head? "general"
  let template :=
    if strIncludes primaryNeed "employment" then employmentFocused
    else if strIncludes primaryNeed "medical" || strIncludes primaryNeed "mental-health" then
      healthFocused
    else housingFocused
  { goals := some template.goals
    tasks := some template.tasks
    resources := some template.resources
    timeline := some "90 days"
    reviewDate := some (now + 30 * 24 * 60 * 60 * 1000)
    confidence := 80
    source := some "rules"
    customizable := true }

/-- `tryRulesFirst` (`server.ai-router.js` lines 89-103).  The `triage`
branch evaluates `this.triageRules(input, options)`; the own property
`this.triageRules` is the lookup-table object assigned in the constructor
(lines 23-30), which shadows the prototype method of the same name
(line 138), so the call raises `TypeError: this.triageRules is not a
function` instead of running the method. -/
def tryRulesFirst (now : Nat) (task : String) (input : RouteInput) :
    Except String RouteResult :=
  if task = "navigator" then navigatorRules input
  else if task = "triage" then .error "this.triageRules is not a function"
  else if task = "careplan" then .ok (careplanRules now input)
  else .ok { uncertain := true, confidence := 30 }

/-- The canned success of the mock cheap model (lines 241-246). -/
def cheapModelResult (cfg : RouterConfig) (task : String) : RouteResult :=
  { response := some ("Enhanced response for " ++ task ++ " (cheap model)")
    confidence := 70
    source := some "cheap-model"
    tokens := cfg.AI_MAX_TOKENS_CHEAP }

/-- The canned success of the mock expensive model (lines 265-270). -/
def expensiveModelResult (cfg : RouterConfig) (task : String) : RouteResult :=
  { response := some ("Detailed response for " ++ task ++ " (expensive model)")
    confidence := 95
    source := some "expensive-model"
    tokens := cfg.AI_MAX_TOKENS_EXPENSIVE }

/-- `tryCheapModel` (lines 230-251): a budget-guarded mock call; the
`getD 100` realizes `withBudget`'s JS default parameter for an absent
`AI_MAX_TOKENS_CHEAP`. -/
def tryCheapModel (cfg : RouterConfig) (gcfg : GuardConfig) (st : Stats)
    (today : String) (task : String) : Except String RouteResult × Stats × Bool :=
  if !(routerEnabled cfg) then
    (.ok { uncertain := true, confidence := 30 }, st, false)
  else
    withBudget gcfg st today ("cheap-" ++ task)
      (.ok (cheapModelResult cfg task)) (cfg.AI_MAX_TOKENS_CHEAP.getD 100) "cheap"

/-- `tryExpensiveModel` (lines 254-275). -/
def tryExpensiveModel (cfg : RouterConfig) (gcfg : GuardConfig) (st : Stats)
    (today : String) (task : String) : Except String RouteResult × Stats × Bool :=
  if !(routerEnabled cfg) then
    (.ok { uncertain := true, confidence := 30 }, st, false)
  else
    withBudget gcfg st today ("expensive-" ++ task)
      (.ok (expensiveModelResult cfg task)) (cfg.AI_MAX_TOKENS_EXPENSIVE.getD 100) "expensive"

/-- `AIRouter.shouldEscalate` (lines 278-281).  Every result reaching it
in the embedding is non-null, and every result the source constructs
carries a `confidence`, so only the second line matters. -/
def shouldEscalate (r : RouteResult) : Bool :=
  r.uncertain || decide (r.confidence < 70)

/-- `getTTL` (lines 284-295), with JS `||` defaulting. -/
def getTTL (cfg : RouterConfig) (task : String) : Nat :=
  if task = "navigator" then jsOr cfg.CACHE_TTL_FAQ 86400
  else if task = "triage" then jsOr cfg.CACHE_TTL_TRIAGE 7200
  else if task = "careplan" then jsOr cfg.CACHE_TTL_TRIAGE 7200
  else 3600

/-- `getFallbackResponse` (lines 298-332). -/
def getFallbackResponse (task : String) : RouteResult :=
  if task = "navigator" then
    { response := some "I\x27m here to help connect you with services. Please let a caseworker know what specific assistance you need."
      confidence := 50
      source := some "fallback" }
  else if task = "triage" then
    { priority := some "medium"
      recommendations := some ["General assessment needed", "Schedule intake appointment"]
      nextSteps := some ["Contact caseworker", "Gather documentation"]
      confidence := 50
      source := some "fallback" }
  else if task = "careplan" then
    { goals := some ["Stabilize current situation", "Connect with appropriate services"]
      tasks := some ["Meet with caseworker", "Complete assessments"]
      resources := some ["Case management services", "Community resources"]
      confidence := 50
      source := some "fallback" }
  else
    { response := some "Service temporarily unavailable. Please contact your caseworker."
      confidence := 30
      source := some "fallback" }

/-- The body of `route`'s `try` block after the cache miss (lines 62-74):
rules tier, then up to two guarded escalations.  Returns the outcome, the
stats it leaves, and the ghost count of model tiers attempted. -/
def routeCore (cfg : RouterConfig) (gcfg : GuardConfig) (stats : Stats)
    (today : String) (now : Nat) (task : String) (input : RouteInput) :
    Except String RouteResult × Stats × Nat :=
  match tryRulesFirst now task input with
  | .error e => (.error e, stats, 0)
  | .ok r1 =>
    if shouldEscalate r1 && routerEnabled cfg then
      match tryCheapModel cfg gcfg stats today task with
      | (.error e, stats2, _) => (.error e, stats2, 1)
      | (.ok r2, stats2, _) =>
        if shouldEscalate r2 && routerEnabled cfg then
          match tryExpensiveModel cfg gcfg stats2 today task with
          | (.error e, stats3, _) => (.error e, stats3, 2)
          | (.ok r3, stats3, _) => (.ok r3, stats3, 2)
        else (.ok r2, stats2, 1)
    else (.ok r1, stats, 0)

/-- `route` (`server.ai-router.js` lines 52-86): fingerprint, cache
lookup, tier escalation, caching of the final result, and conversion of
any thrown error into the task fallback (which is not cached).  The third
component is the ghost tier-attempt count (0 on a cache hit). -/
def route (cfg : RouterConfig) (gcfg : GuardConfig) (st : GuardState)
    (today : String) (now : Nat) (task : String) (input : RouteInput)
    (optionsStr : String) : RouteResult × GuardState × Nat :=
  let cacheKey := routeCacheKey task input optionsStr
  let looked := cacheGet st now cacheKey
  match looked.1 with
  | some cached => (cached, looked.2, 0)
  | none =>
    match routeCore cfg gcfg looked.2.stats today now task input with
    | (.ok result, stats2, k) =>
        let ttl := getTTL cfg task
        let st2 := cacheSet gcfg { looked.2 with stats := stats2 } cacheKey result ttl now
        (result, st2, k)
    | (.error _, stats2, k) =>
        (getFallbackResponse task, { looked.2 with stats := stats2 }, k)

/-- The slice of `getStats` (`server.ai-router.js` lines 335-340 composed
with `CostGuard.getStats`, `server-cost-guard.js` lines 126-139) that the
claims inspect: the `enabled` field and the spread of the (lazily reset)
raw counters.  The derived presentation fields (`cacheHitRate`,
`dailyBudgetUsed`, `estimatedDailyCost`, `cacheSize`) are formatting of
the same counters and are not embedded. -/
structure RouterStatsView where
  enabled : JSVal
  stats : Stats
deriving Repr, DecidableEq

/-- `getStats`, returning the view and the guard stats it leaves behind
(the lazy reset is its only mutation). -/
def getStats (cfg : RouterConfig) (st : Stats) (today : String) :
    RouterStatsView × Stats :=
  let st1 := resetDailyCountersIfNeeded st today
  ({ enabled := routerEnabledVal cfg, stats := st1 }, st1)

/-- One budget-guarded cheap-tier call with per-call cost `c`, as `route`
performs it through `withBudget` (the wrapped operation succeeding, its
value irrelevant to the counters): returns whether the call was admitted
and the stats it leaves. -/
def spendCheapOnce (gcfg : GuardConfig) (today : String) (c : Nat) (st : Stats) :
    Bool × Stats :=
  match withBudget gcfg st today "cheap-call" (.ok {}) c "cheap" with
  | (.ok _, st1, _) => (true, st1)
  | (.error _, st1, _) => (false, st1)

/-- The admission outcomes of `n` consecutive cheap-tier calls of cost `c`
starting from `st` (no cache hits intervening). -/
def cheapCallResults (gcfg : GuardConfig) (today : String) (c : Nat) :
    Stats → Nat → List Bool
  | _, 0 => []
  | st, n + 1 =>
    let step := spendCheapOnce gcfg today c st
    step.1 :: cheapCallResults gcfg today c step.2 n

/-- The triage scenario input of the spec:
`{needs:["housing"], urgency:"critical"}`. -/
def c1TriageClient : ClientRec :=
  { needs := some ["housing"], urgency := some "critical" }

/-! ## Helper lemmas -/

/-- The lazy reset is the identity when the date has not advanced. -/
theorem resetDailyCountersIfNeeded_noop (st : Stats) (today : String)
    (h : st.lastResetDate = today) :
    resetDailyCountersIfNeeded st today = st := by
  unfold resetDailyCountersIfNeeded
  simp [h]

/-- The lazy reset stamps the current date, so running it twice is the
same as running it once. -/
theorem resetDailyCountersIfNeeded_idem (st : Stats) (today : String) :
    resetDailyCountersIfNeeded (resetDailyCountersIfNeeded st today) today
      = resetDailyCountersIfNeeded st today := by
  unfold resetDailyCountersIfNeeded
  split <;> simp_all

/-- `canMakeCall` mutates the stats only through the lazy reset. -/
theorem canMakeCall_snd (gcfg : GuardConfig) (st : Stats) (today : String)
    (tokens : Nat) (type : String) :
    (canMakeCall gcfg st today tokens type).2 = resetDailyCountersIfNeeded st today := by
  simp only [canMakeCall]
  split <;> (try split) <;> (try split) <;> rfl

/-- Every branch of `getFallbackResponse` is marked `source: "fallback"`. -/
theorem getFallbackResponse_source (task : String) :
    (getFallbackResponse task).source = some "fallback" := by
  simp only [getFallbackResponse]
  split <;> (try split) <;> (try split) <;> rfl

/-! ## Claim theorems -/

/-- C1: the spec scenario expects `route('triage', {needs:["housing"],
urgency:"critical"}, {})` with an empty cache to yield the rules tier's
urgent assessment (the three fixed housing recommendations, confidence
0.95, source "rules").  In the code the constructor's `this.triageRules`
lookup table shadows the prototype method of the same name, so the rules
tier throws and `route` returns the triage *fallback* instead — even with
AI enabled.  The shadowed method itself computes exactly the claimed
urgent result, witnessing that the claim matches the code's intent. -/
theorem C1_triage_scenario_hits_shadowing_bug :
    (route { AI_ENABLE := true, OPENAI_API_KEY := "k" } {} (emptyGuardState "d") "d" 0
        "triage" (.client c1TriageClient) "\x7b\x7d").1
      = getFallbackResponse "triage"
    ∧ (getFallbackResponse "triage").source = some "fallback"
    ∧ (getFallbackResponse "triage").priority = some "medium"
    ∧ triageRules c1TriageClient = triageUrgentHousingResult
    ∧ triageUrgentHousingResult.confidence = 95
    ∧ triageUrgentHousingResult.source = some "rules"
    ∧ triageUrgentHousingResult.priority = some "urgent" := by
  decide

/-- C9 counterexample: with `AI_ENABLE` on and a credential configured,
`getStats().enabled` is not the boolean `true` — it is the credential
string itself, so the claim that the field is always a boolean and never
exposes the credential fails on the code. -/
theorem C9_counterexample :
    (getStats { AI_ENABLE := true, OPENAI_API_KEY := "sk-test-123" }
        (initialStats "d") "d").1.enabled = JSVal.str "sk-test-123"
    ∧ (getStats { AI_ENABLE := true, OPENAI_API_KEY := "sk-test-123" }
        (initialStats "d") "d").1.enabled ≠ JSVal.bool true := by
  decide

/-- C9 amended: `getStats().enabled` is *truthy* exactly when the AI flag
is set and the credential is nonempty, but it is not a boolean flag: when
`AI_ENABLE` is true the field is the `OPENAI_API_KEY` string itself (the
credential value is exposed), and only when `AI_ENABLE` is false is it
the boolean `false`. -/
theorem C9_enabled_truthiness (cfg : RouterConfig) (st : Stats) (today : String) :
    ((getStats cfg st today).1.enabled).truthy
        = (cfg.AI_ENABLE && !(cfg.OPENAI_API_KEY == ""))
    ∧ (cfg.AI_ENABLE = true →
        (getStats cfg st today).1.enabled = JSVal.str cfg.OPENAI_API_KEY)
    ∧ (cfg.AI_ENABLE = false →
        (getStats cfg st today).1.enabled = JSVal.bool false) := by
  unfold getStats routerEnabledVal jsAnd
  cases h : cfg.AI_ENABLE <;> simp [JSVal.truthy, h]

/-- C9 amended, witness: a configured router exposes its key through
`getStats`, and a disabled one reports the boolean `false`. -/
theorem C9_enabled_truthiness_witness :
    (getStats { AI_ENABLE := true, OPENAI_API_KEY := "sk-9" } (initialStats "d") "d").1.enabled
        = JSVal.str "sk-9"
    ∧ (getStats { OPENAI_API_KEY := "sk-9" } (initialStats "d") "d").1.enabled
        = JSVal.bool false :=
  ⟨(C9_enabled_truthiness { AI_ENABLE := true, OPENAI_API_KEY := "sk-9" }
      (initialStats "d") "d").2.1 rfl,
   (C9_enabled_truthiness { OPENAI_API_KEY := "sk-9" }
      (initialStats "d") "d").2.2 rfl⟩

/-- C10: when the process-local date string has advanced past
`lastResetDate`, the lazy reset performed at the head of every
budget-relevant operation (`canMakeCall`, `withBudget`, `getStats`)
zeroes `dailyTokens` and stamps the new date, while the cumulative
per-tier call counters and `totalTokens` are untouched by the reset;
`canMakeCall` and `getStats` leave exactly the reset state behind, and
`withBudget` behaves as if started from the reset state. -/
theorem C10_daily_reset_frame (cfg : RouterConfig) (gcfg : GuardConfig) (st : Stats)
    (today label type : String) (fn : Except String RouteResult) (tokens : Nat)
    (hne : st.lastResetDate ≠ today) :
    (resetDailyCountersIfNeeded st today).dailyTokens = 0
    ∧ (resetDailyCountersIfNeeded st today).lastResetDate = today
    ∧ (resetDailyCountersIfNeeded st today).cheapCalls = st.cheapCalls
    ∧ (resetDailyCountersIfNeeded st today).expensiveCalls = st.expensiveCalls
    ∧ (resetDailyCountersIfNeeded st today).totalTokens = st.totalTokens
    ∧ (canMakeCall gcfg st today tokens type).2 = resetDailyCountersIfNeeded st today
    ∧ (getStats cfg st today).2 = resetDailyCountersIfNeeded st today
    ∧ withBudget gcfg st today label fn tokens type
        = withBudget gcfg (resetDailyCountersIfNeeded st today) today label fn tokens type := by
  have hreset : resetDailyCountersIfNeeded st today
      = { st with dailyTokens := 0, lastResetDate := today } := by
    unfold resetDailyCountersIfNeeded
    simp [hne]
  have hfactor : canMakeCall gcfg st today tokens type
      = canMakeCall gcfg (resetDailyCountersIfNeeded st today) today tokens type := by
    unfold canMakeCall
    rw [resetDailyCountersIfNeeded_idem]
  refine ⟨by rw [hreset], by rw [hreset], by rw [hreset], by rw [hreset], by rw [hreset],
    canMakeCall_snd gcfg st today tokens type, rfl, ?_⟩
  unfold withBudget
  rw [hfactor]

/-- C10 witness: a concrete state dated "Mon Jan 01 2024" observed on
"Tue Jan 02 2024". -/
theorem C10_daily_reset_frame_witness :
    (resetDailyCountersIfNeeded
        { cacheHits := 1, cacheMisses := 2, cheapCalls := 3, expensiveCalls := 4,
          totalTokens := 500, dailyTokens := 600, lastResetDate := "Mon Jan 01 2024" }
        "Tue Jan 02 2024").dailyTokens = 0
    ∧ (resetDailyCountersIfNeeded
        { cacheHits := 1, cacheMisses := 2, cheapCalls := 3, expensiveCalls := 4,
          totalTokens := 500, dailyTokens := 600, lastResetDate := "Mon Jan 01 2024" }
        "Tue Jan 02 2024").cheapCalls = 3 :=
  ⟨(C10_daily_reset_frame {} {}
      { cacheHits := 1, cacheMisses := 2, cheapCalls := 3, expensiveCalls := 4,
        totalTokens := 500, dailyTokens := 600, lastResetDate := "Mon Jan 01 2024" }
      "Tue Jan 02 2024" "L" "cheap" (.ok {}) 5 (by decide)).1,
   (C10_daily_reset_frame {} {}
      { cacheHits := 1, cacheMisses := 2, cheapCalls := 3, expensiveCalls := 4,
        totalTokens := 500, dailyTokens := 600, lastResetDate := "Mon Jan 01 2024" }
      "Tue Jan 02 2024" "L" "cheap" (.ok {}) 5 (by decide)).2.2.1⟩

/-- C2 counterexample: with AI disabled and a navigator query the rules
tier cannot resolve, `route` returns the rules tier's Uncertain marker
(uncertain, confidence 0.4, no `source` field) to the caller — not the
fixed navigator fallback with `source: "fallback"`. -/
theorem C2_counterexample :
    (route { AI_ENABLE := false } {} (emptyGuardState "d") "d" 0
        "navigator" (.str "xyz") "").1 = navigatorUncertainResult
    ∧ (route { AI_ENABLE := false } {} (emptyGuardState "d") "d" 0
        "navigator" (.str "xyz") "").1.source ≠ some "fallback"
    ∧ (route { AI_ENABLE := false } {} (emptyGuardState "d") "d" 0
        "navigator" (.str "xyz") "").1.uncertain = true := by
  decide

/-- C2 amended: when AI is disabled and the rules tier cannot resolve a
navigator query (it yields its fixed Uncertain marker), `route` returns
that Uncertain result itself to the caller on a cache miss; the navigator
fallback is produced only on a thrown error, not here.  The returned
result is uncertain, carries confidence 0.4 and no `source` field. -/
theorem C2_uncertain_returned_when_ai_disabled (cfg : RouterConfig) (gcfg : GuardConfig)
    (st : GuardState) (today : String) (now : Nat) (q opts : String)
    (hai : cfg.AI_ENABLE = false)
    (hq : navigatorRules (.str q) = .ok navigatorUncertainResult)
    (hmiss : (cacheGet st now (routeCacheKey "navigator" (.str q) opts)).1 = none) :
    (route cfg gcfg st today now "navigator" (.str q) opts).1 = navigatorUncertainResult
    ∧ navigatorUncertainResult.uncertain = true
    ∧ navigatorUncertainResult.confidence = 40
    ∧ navigatorUncertainResult.source = none
    ∧ navigatorUncertainResult ≠ getFallbackResponse "navigator" := by
  have henabled : routerEnabled cfg = false := by
    unfold routerEnabled routerEnabledVal jsAnd
    simp [JSVal.truthy, hai]
  have hrules : tryRulesFirst now "navigator" (.str q) = .ok navigatorUncertainResult := hq
  have hcore : routeCore cfg gcfg (cacheGet st now
        (routeCacheKey "navigator" (.str q) opts)).2.stats today now "navigator" (.str q)
      = (.ok navigatorUncertainResult,
         (cacheGet st now (routeCacheKey "navigator" (.str q) opts)).2.stats, 0) := by
    unfold routeCore
    rw [hrules, henabled]
    simp
  refine ⟨?_, rfl, rfl, rfl, by decide⟩
  simp only [route, hmiss, hcore]

/-- C2 amended, witness: the concrete unresolvable query "xyz" with AI
disabled comes back as the Uncertain marker. -/
theorem C2_uncertain_returned_when_ai_disabled_witness :
    navigatorRules (.str "xyz") = .ok navigatorUncertainResult
    ∧ (route { AI_ENABLE := false } {} (emptyGuardState "d") "d" 0
        "navigator" (.str "xyz") "opts").1 = navigatorUncertainResult :=
  ⟨rfl,
   (C2_uncertain_returned_when_ai_disabled { AI_ENABLE := false } {}
      (emptyGuardState "d") "d" 0 "xyz" "opts" rfl rfl rfl).1⟩

/-- C8: whenever the rules tier resolves with a result that is not marked
uncertain and has confidence at least 0.7, `route` attempts no model tier
at all (ghost tier-attempt count 0); and the shared escalation predicate
holds exactly when a result is marked uncertain or its confidence is
below 0.7. -/
theorem C8_escalation_monotonicity (cfg : RouterConfig) (gcfg : GuardConfig)
    (st : GuardState) (today : String) (now : Nat) (task : String)
    (input : RouteInput) (opts : String) (r : RouteResult)
    (hr : tryRulesFirst now task input = .ok r)
    (hc : 70 ≤ r.confidence) (hu : r.uncertain = false) :
    (route cfg gcfg st today now task input opts).2.2 = 0
    ∧ (∀ r2 : RouteResult, shouldEscalate r2 = true ↔
        (r2.uncertain = true ∨ r2.confidence < 70)) := by
  constructor
  · have hesc : shouldEscalate r = false := by
      unfold shouldEscalate
      simp [hu]
      omega
    cases hcg : (cacheGet st now (routeCacheKey task input opts)).1 with
    | some cached => simp only [route, hcg]
    | none =>
      have hcore : routeCore cfg gcfg
            (cacheGet st now (routeCacheKey task input opts)).2.stats today now task input
          = (.ok r, (cacheGet st now (routeCacheKey task input opts)).2.stats, 0) := by
        unfold routeCore
        rw [hr]
        dsimp only
        rw [hesc]
        simp
      simp only [route, hcg, hcore]
  · intro r2
    unfold shouldEscalate
    simp [Bool.or_eq_true, decide_eq_true_iff]

/-- C8 witness: the navigator query "housing" resolves at the rules tier
with confidence 0.9 and no model tier is attempted. -/
theorem C8_escalation_monotonicity_witness :
    tryRulesFirst 0 "navigator" (.str "housing") = .ok
      { response := some (faqRules.head!).2
        confidence := 90
        source := some "rules"
        category := some "housing" }
    ∧ (route { AI_ENABLE := true, OPENAI_API_KEY := "k" } {} (emptyGuardState "d") "d" 0
        "navigator" (.str "housing") "").2.2 = 0 :=
  ⟨rfl,
   (C8_escalation_monotonicity { AI_ENABLE := true, OPENAI_API_KEY := "k" } {}
      (emptyGuardState "d") "d" 0 "navigator" (.str "housing") ""
      { response := some (faqRules.head!).2
        confidence := 90
        source := some "rules"
        category := some "housing" } rfl (by decide) rfl).1⟩

/-- C4: within a day (`lastResetDate` current), `withBudget` (the spec's
`spend`) rejects with the budget-exceeded error, without invoking the
operation (ghost flag `false`) and without touching any counter, whenever
`canMakeCall` is false; when the admitted operation fails, the error
propagates with all counters unchanged; only on success are
`dailyTokens`, `totalTokens` and the per-tier call counter credited. -/
theorem C4_withBudget_charging (gcfg : GuardConfig) (st : Stats) (today label type : String)
    (fn : Except String RouteResult) (tokens : Nat)
    (hdate : st.lastResetDate = today) :
    ((canMakeCall gcfg st today tokens type).1 = false →
        withBudget gcfg st today label fn tokens type
          = (.error (budgetErrorMsg gcfg st label), st, false))
    ∧ (∀ e, (canMakeCall gcfg st today tokens type).1 = true → fn = .error e →
        withBudget gcfg st today label fn tokens type = (.error e, st, true))
    ∧ (∀ r, (canMakeCall gcfg st today tokens type).1 = true → fn = .ok r →
        withBudget gcfg st today label fn tokens type
          = (.ok r,
             (if type = "expensive" then
                { st with totalTokens := st.totalTokens + tokens
                          dailyTokens := st.dailyTokens + tokens
                          expensiveCalls := st.expensiveCalls + 1 }
              else
                { st with totalTokens := st.totalTokens + tokens
                          dailyTokens := st.dailyTokens + tokens
                          cheapCalls := st.cheapCalls + 1 }),
             true)) := by
  have hsnd : (canMakeCall gcfg st today tokens type).2 = st := by
    rw [canMakeCall_snd, resetDailyCountersIfNeeded_noop st today hdate]
  have hpair : canMakeCall gcfg st today tokens type
      = ((canMakeCall gcfg st today tokens type).1, st) :=
    Prod.ext rfl hsnd
  refine ⟨?_, ?_, ?_⟩
  · intro hf
    unfold withBudget
    rw [hpair, hf]
  · intro e ht hfn
    unfold withBudget
    rw [hpair, ht, hfn]
  · intro r ht hfn
    unfold withBudget
    rw [hpair, ht, hfn]

/-- C4 witness: with the default guard limits, a 100-token cheap call on
an exhausted day is rejected uninvoked and uncharged; on a fresh day the
same call propagates an operation error uncharged, and a successful one
credits exactly the estimate and one cheap call. -/
theorem C4_withBudget_charging_witness :
    ((canMakeCall {} { initialStats "d" with dailyTokens := 10000 } "d" 100 "cheap").1 = false
      ∧ withBudget {} { initialStats "d" with dailyTokens := 10000 } "d" "L" (.ok {}) 100 "cheap"
          = (.error (budgetErrorMsg {} { initialStats "d" with dailyTokens := 10000 } "L"),
             { initialStats "d" with dailyTokens := 10000 }, false))
    ∧ withBudget {} (initialStats "d") "d" "L" (.error "boom") 100 "cheap"
        = (.error "boom", initialStats "d", true)
    ∧ withBudget {} (initialStats "d") "d" "L" (.ok {}) 100 "cheap"
        = (.ok {},
           { initialStats "d" with totalTokens := 100, dailyTokens := 100, cheapCalls := 1 },
           true) := by
  refine ⟨⟨by decide, ?_⟩, ?_, ?_⟩
  · exact (C4_withBudget_charging {} { initialStats "d" with dailyTokens := 10000 }
      "d" "L" "cheap" (.ok {}) 100 rfl).1 (by decide)
  · exact (C4_withBudget_charging {} (initialStats "d")
      "d" "L" "cheap" (.error "boom") 100 rfl).2.1 "boom" (by decide) rfl
  · have h := (C4_withBudget_charging {} (initialStats "d")
      "d" "L" "cheap" (.ok {}) 100 rfl).2.2 {} (by decide) rfl
    simpa using h

/-- C6: on a cache miss, whenever the tier pipeline raises an error
(tier failure or budget rejection), `route` returns the deterministic
task-specific fallback — whose `source` is `"fallback"` for every task —
instead of letting the exception escape, and the fallback is not written
to the cache (the cache is exactly what the lookup step left). -/
theorem C6_internal_errors_degrade_to_uncached_fallback (cfg : RouterConfig)
    (gcfg : GuardConfig) (st : GuardState) (today : String) (now : Nat)
    (task : String) (input : RouteInput) (opts : String)
    (e : String) (st2 : Stats) (k : Nat)
    (hmiss : (cacheGet st now (routeCacheKey task input opts)).1 = none)
    (herr : routeCore cfg gcfg (cacheGet st now (routeCacheKey task input opts)).2.stats
        today now task input = (.error e, st2, k)) :
    (route cfg gcfg st today now task input opts).1 = getFallbackResponse task
    ∧ (route cfg gcfg st today now task input opts).1.source = some "fallback"
    ∧ (route cfg gcfg st today now task input opts).2.1.cache
        = (cacheGet st now (routeCacheKey task input opts)).2.cache := by
  have h1 : route cfg gcfg st today now task input opts
      = (getFallbackResponse task,
         { (cacheGet st now (routeCacheKey task input opts)).2 with stats := st2 }, k) := by
    simp only [route, hmiss, herr]
  rw [h1]
  exact ⟨rfl, getFallbackResponse_source task, rfl⟩

/-- C6 witness: the triage task errors internally (the shadowed rules
method), and `route` hands back the triage fallback while the cache stays
empty. -/
theorem C6_internal_errors_degrade_to_uncached_fallback_witness :
    (route {} {} (emptyGuardState "d") "d" 0 "triage" (.client {}) "").1
        = getFallbackResponse "triage"
    ∧ (route {} {} (emptyGuardState "d") "d" 0 "triage" (.client {}) "").2.1.cache
        = (cacheGet (emptyGuardState "d") 0 (routeCacheKey "triage" (.client {}) "")).2.cache := by
  have h := C6_internal_errors_degrade_to_uncached_fallback {} {} (emptyGuardState "d")
    "d" 0 "triage" (.client {}) "" "this.triageRules is not a function"
    (cacheGet (emptyGuardState "d") 0 (routeCacheKey "triage" (.client {}) "")).2.stats 0
    rfl rfl
  exact ⟨h.1, h.2.2⟩

/-- C7: if the first `route` call for `(task, input, options)` misses the
cache and its tier pipeline succeeds, then a second call within the TTL
window returns the identical cached result, attempts zero model tiers
(ghost count 0), leaves the cache untouched, and consumes no budget: the
daily and total token counters and both per-tier call counters are
exactly those the first call left. -/
theorem C7_cache_idempotent (cfg : RouterConfig) (gcfg : GuardConfig) (st : GuardState)
    (today : String) (now1 now2 : Nat) (task : String) (input : RouteInput) (opts : String)
    (r1 : RouteResult) (st2 : Stats) (k1 : Nat)
    (hmiss : (cacheGet st now1 (routeCacheKey task input opts)).1 = none)
    (hok : routeCore cfg gcfg (cacheGet st now1 (routeCacheKey task input opts)).2.stats
        today now1 task input = (.ok r1, st2, k1))
    (hwin : now2 < now1 + jsOr (getTTL cfg task) gcfg.defaultTTL * 1000) :
    (route cfg gcfg (route cfg gcfg st today now1 task input opts).2.1
        today now2 task input opts).1
      = (route cfg gcfg st today now1 task input opts).1
    ∧ (route cfg gcfg (route cfg gcfg st today now1 task input opts).2.1
        today now2 task input opts).2.2 = 0
    ∧ (route cfg gcfg (route cfg gcfg st today now1 task input opts).2.1
        today now2 task input opts).2.1.cache
      = (route cfg gcfg st today now1 task input opts).2.1.cache
    ∧ (route cfg gcfg (route cfg gcfg st today now1 task input opts).2.1
        today now2 task input opts).2.1.stats.dailyTokens
      = (route cfg gcfg st today now1 task input opts).2.1.stats.dailyTokens
    ∧ (route cfg gcfg (route cfg gcfg st today now1 task input opts).2.1
        today now2 task input opts).2.1.stats.totalTokens
      = (route cfg gcfg st today now1 task input opts).2.1.stats.totalTokens
    ∧ (route cfg gcfg (route cfg gcfg st today now1 task input opts).2.1
        today now2 task input opts).2.1.stats.cheapCalls
      = (route cfg gcfg st today now1 task input opts).2.1.stats.cheapCalls
    ∧ (route cfg gcfg (route cfg gcfg st today now1 task input opts).2.1
        today now2 task input opts).2.1.stats.expensiveCalls
      = (route cfg gcfg st today now1 task input opts).2.1.stats.expensiveCalls := by
  set R := route cfg gcfg st today now1 task input opts with hR
  have h1 : R = (r1, cacheSet gcfg
               { (cacheGet st now1 (routeCacheKey task input opts)).2 with stats := st2 }
               (routeCacheKey task input opts) r1 (getTTL cfg task) now1, k1) := by
    rw [hR]
    simp only [route, hmiss, hok]
  have hlk : R.2.1.cache.lookup (routeCacheKey task input opts)
      = some { data := r1,
               expiry := now1 + jsOr (getTTL cfg task) gcfg.defaultTTL * 1000 } := by
    rw [h1]
    simp [cacheSet, List.lookup]
  have hgetpair : cacheGet R.2.1 now2 (routeCacheKey task input opts)
      = (some r1,
         { R.2.1 with
             stats := { R.2.1.stats with cacheHits := R.2.1.stats.cacheHits + 1 } }) := by
    unfold cacheGet
    rw [hlk]
    dsimp only
    rw [if_pos hwin]
  have h2 : route cfg gcfg R.2.1 today now2 task input opts
      = (r1,
         { R.2.1 with
             stats := { R.2.1.stats with cacheHits := R.2.1.stats.cacheHits + 1 } }, 0) := by
    simp only [route, hgetpair]
  rw [h2, h1]
  exact ⟨rfl, rfl, rfl, rfl, rfl, rfl, rfl⟩

/-- C7 witness: the navigator greeting query "hello" answered at time 0
is served from cache at time 1 with untouched budget counters. -/
theorem C7_cache_idempotent_witness :
    (route {} {} (route {} {} (emptyGuardState "d") "d" 0 "navigator" (.str "hello") "").2.1
        "d" 1 "navigator" (.str "hello") "").1
      = (route {} {} (emptyGuardState "d") "d" 0 "navigator" (.str "hello") "").1
    ∧ (route {} {} (route {} {} (emptyGuardState "d") "d" 0 "navigator" (.str "hello") "").2.1
        "d" 1 "navigator" (.str "hello") "").2.1.stats.dailyTokens
      = (route {} {} (emptyGuardState "d") "d" 0 "navigator" (.str "hello") "").2.1.stats.dailyTokens := by
  have h := C7_cache_idempotent {} {} (emptyGuardState "d") "d" 0 1 "navigator"
    (.str "hello") "" navigatorGreetingResult
    (cacheGet (emptyGuardState "d") 0 (routeCacheKey "navigator" (.str "hello") "")).2.stats 0
    rfl rfl (by decide)
  exact ⟨h.1, h.2.2.2.1⟩

/-- C3: any two object (non-string) inputs stringify to "[object Object]"
inside the key template, so for one task and one options value they hash
to the same cache key; consequently a careplan computed and cached for
client `a` is served verbatim, within the TTL window, to a `route` call
for a different client `b`. -/
theorem C3_object_inputs_collide_in_cache (task opts : String) (a b : ClientRec)
    (cfg : RouterConfig) (gcfg : GuardConfig) (today : String) (now1 now2 : Nat)
    (hwin : now2 < now1 + getTTL cfg "careplan" * 1000) :
    routeCacheKey task (.client a) opts = routeCacheKey task (.client b) opts
    ∧ (route cfg gcfg
         (route cfg gcfg (emptyGuardState today) today now1 "careplan" (.client a) opts).2.1
         today now2 "careplan" (.client b) opts).1
      = careplanRules now1 (.client a) := by
  refine ⟨rfl, ?_⟩
  have hjsor : jsOr (getTTL cfg "careplan") gcfg.defaultTTL = getTTL cfg "careplan" := by
    have h0 : getTTL cfg "careplan" ≠ 0 := by
      show jsOr cfg.CACHE_TTL_TRIAGE 7200 ≠ 0
      unfold jsOr
      split <;> omega
    unfold jsOr
    simp [h0]
  have hexp : now2 < now1 + jsOr (getTTL cfg "careplan") gcfg.defaultTTL * 1000 := by
    rw [hjsor]
    exact hwin
  set R := route cfg gcfg (emptyGuardState today) today now1 "careplan" (.client a) opts
    with hR
  have h1 : R = (careplanRules now1 (.client a),
      { cache := [(routeCacheKey "careplan" (.client b) opts,
          { data := careplanRules now1 (.client a)
            expiry := now1 + jsOr (getTTL cfg "careplan") gcfg.defaultTTL * 1000 })]
        stats := { initialStats today with cacheMisses := 1 } }, 0) := by
    rw [hR]
    rfl
  have hlk : R.2.1.cache.lookup (routeCacheKey "careplan" (.client b) opts)
      = some { data := careplanRules now1 (.client a)
               expiry := now1 + jsOr (getTTL cfg "careplan") gcfg.defaultTTL * 1000 } := by
    rw [h1]
    simp [List.lookup]
  have hgetpair : cacheGet R.2.1 now2 (routeCacheKey "careplan" (.client b) opts)
      = (some (careplanRules now1 (.client a)),
         { R.2.1 with
             stats := { R.2.1.stats with cacheHits := R.2.1.stats.cacheHits + 1 } }) := by
    unfold cacheGet
    rw [hlk]
    dsimp only
    rw [if_pos hexp]
  have h2 : route cfg gcfg R.2.1 today now2 "careplan" (.client b) opts
      = (careplanRules now1 (.client a),
         { R.2.1 with
             stats := { R.2.1.stats with cacheHits := R.2.1.stats.cacheHits + 1 } }, 0) := by
    simp only [route, hgetpair]
  rw [h2]

/-- C3 witness: two visibly different client records; the second client
receives the employment-focused plan computed for the first. -/
theorem C3_object_inputs_collide_in_cache_witness :
    ({ needs := some ["employment"] } : ClientRec) ≠ ({} : ClientRec)
    ∧ routeCacheKey "careplan" (.client { needs := some ["employment"] }) "o"
        = routeCacheKey "careplan" (.client {}) "o"
    ∧ (route {} {} (route {} {} (emptyGuardState "d") "d" 0 "careplan"
          (.client { needs := some ["employment"] }) "o").2.1
        "d" 1000 "careplan" (.client {}) "o").1
      = careplanRules 0 (.client { needs := some ["employment"] })
    ∧ (careplanRules 0 (.client { needs := some ["employment"] })).goals
        = some employmentFocused.goals := by
  have h := C3_object_inputs_collide_in_cache "careplan" "o"
    { needs := some ["employment"] } {} {} {} "d" 0 1000 (by decide)
  exact ⟨by decide, h.1, h.2, by decide⟩

/-- An admitted cheap-tier call within the day credits exactly its cost
and one cheap call. -/
theorem spendCheapOnce_admitted (gcfg : GuardConfig) (today : String) (c : Nat) (st : Stats)
    (hdate : st.lastResetDate = today)
    (hd : st.dailyTokens + c ≤ gcfg.maxDailyTokens)
    (hc : c ≤ gcfg.maxCheapTokens) :
    spendCheapOnce gcfg today c st
      = (true, { st with totalTokens := st.totalTokens + c
                         dailyTokens := st.dailyTokens + c
                         cheapCalls := st.cheapCalls + 1 }) := by
  have hcan : canMakeCall gcfg st today c "cheap" = (true, st) := by
    simp only [canMakeCall]
    rw [resetDailyCountersIfNeeded_noop st today hdate]
    have hmax : (if ("cheap" : String) = "expensive" then gcfg.maxExpensiveTokens
        else gcfg.maxCheapTokens) = gcfg.maxCheapTokens := rfl
    rw [if_neg (by omega), hmax, if_neg (show ¬c > gcfg.maxCheapTokens by omega)]
  unfold spendCheapOnce withBudget
  rw [hcan]
  rfl

/-- A cheap-tier call that would overrun the daily ceiling is rejected
and leaves the stats untouched. -/
theorem spendCheapOnce_rejected (gcfg : GuardConfig) (today : String) (c : Nat) (st : Stats)
    (hdate : st.lastResetDate = today)
    (hd : gcfg.maxDailyTokens < st.dailyTokens + c) :
    spendCheapOnce gcfg today c st = (false, st) := by
  have hcan : canMakeCall gcfg st today c "cheap" = (false, st) := by
    simp only [canMakeCall]
    rw [resetDailyCountersIfNeeded_noop st today hdate]
    rw [if_pos (by omega)]
  unfold spendCheapOnce withBudget
  rw [hcan]

/-- One-step unfolding of the call iteration. -/
theorem cheapCallResults_succ (gcfg : GuardConfig) (today : String) (c : Nat)
    (st : Stats) (n : Nat) :
    cheapCallResults gcfg today c st (n + 1)
      = (spendCheapOnce gcfg today c st).1 ::
          cheapCallResults gcfg today c (spendCheapOnce gcfg today c st).2 n := rfl

/-- After `j` admitted calls of cost `c`, the remaining `k + 1` attempts
(where `j + k` exhausts the daily ceiling) admit exactly `k` more calls
and reject the next. -/
theorem cheapCallResults_exhaust (gcfg : GuardConfig) (today : String) (c : Nat)
    (hc0 : 0 < c) (hc : c ≤ gcfg.maxCheapTokens) :
    ∀ (k j : Nat) (st : Stats), st.lastResetDate = today →
      st.dailyTokens = j * c →
      j + k = gcfg.maxDailyTokens / c →
      cheapCallResults gcfg today c st (k + 1) = List.replicate k true ++ [false] := by
  intro k
  induction k with
  | zero =>
    intro j st hdate hdt hjk
    have hkey : gcfg.maxDailyTokens < (gcfg.maxDailyTokens / c + 1) * c := by
      have hdm := Nat.div_add_mod gcfg.maxDailyTokens c
      have hml := Nat.mod_lt gcfg.maxDailyTokens hc0
      calc gcfg.maxDailyTokens
          = c * (gcfg.maxDailyTokens / c) + gcfg.maxDailyTokens % c := hdm.symm
        _ < c * (gcfg.maxDailyTokens / c) + c := by omega
        _ = (gcfg.maxDailyTokens / c + 1) * c := by ring
    have hrej : gcfg.maxDailyTokens < st.dailyTokens + c := by
      have hj : j = gcfg.maxDailyTokens / c := by omega
      rw [hdt, hj]
      calc gcfg.maxDailyTokens < (gcfg.maxDailyTokens / c + 1) * c := hkey
        _ = gcfg.maxDailyTokens / c * c + c := by ring
    rw [cheapCallResults_succ, spendCheapOnce_rejected gcfg today c st hdate hrej]
    rfl
  | succ k ih =>
    intro j st hdate hdt hjk
    have hj1 : j + 1 ≤ gcfg.maxDailyTokens / c := by omega
    have hle : st.dailyTokens + c ≤ gcfg.maxDailyTokens := by
      rw [hdt]
      have h1 : (j + 1) * c ≤ gcfg.maxDailyTokens / c * c := Nat.mul_le_mul_right c hj1
      have h2 : gcfg.maxDailyTokens / c * c ≤ gcfg.maxDailyTokens :=
        Nat.div_mul_le_self _ _
      have h3 : j * c + c = (j + 1) * c := by ring
      omega
    rw [cheapCallResults_succ, spendCheapOnce_admitted gcfg today c st hdate hle hc]
    have hstep := ih (j + 1)
      { st with totalTokens := st.totalTokens + c
                dailyTokens := st.dailyTokens + c
                cheapCalls := st.cheapCalls + 1 }
      hdate (by rw [hdt]; ring) (by omega)
    dsimp only
    rw [hstep, List.replicate_succ]
    rfl

/-- C5: `canMakeCall` admits a call exactly when the estimate fits the
per-tier ceiling and, after the lazy reset, the daily usage plus the
estimate fits the daily ceiling; consequently, from zero usage, with
daily ceiling `T` and cheap-tier cost `c` per call, exactly `T / c`
consecutive cheap calls are admitted and the next one is rejected; and a
`route` call whose cheap escalation is rejected by the budget returns the
navigator fallback rather than letting the exception escape. -/
theorem C5_budget_enforcement (gcfg : GuardConfig) (today : String) :
    (∀ (st : Stats) (tokens : Nat) (type : String),
        (canMakeCall gcfg st today tokens type).1 = true ↔
          (tokens ≤ (if type = "expensive" then gcfg.maxExpensiveTokens
              else gcfg.maxCheapTokens)
           ∧ (resetDailyCountersIfNeeded st today).dailyTokens + tokens
              ≤ gcfg.maxDailyTokens))
    ∧ (∀ c : Nat, 0 < c → c ≤ gcfg.maxCheapTokens →
        cheapCallResults gcfg today c (initialStats today) (gcfg.maxDailyTokens / c + 1)
          = List.replicate (gcfg.maxDailyTokens / c) true ++ [false])
    ∧ (∀ (cfg : RouterConfig) (st : GuardState) (now : Nat) (q opts : String),
        navigatorRules (.str q) = .ok navigatorUncertainResult →
        routerEnabled cfg = true →
        (cacheGet st now (routeCacheKey "navigator" (.str q) opts)).1 = none →
        (canMakeCall gcfg
            (cacheGet st now (routeCacheKey "navigator" (.str q) opts)).2.stats today
            (cfg.AI_MAX_TOKENS_CHEAP.getD 100) "cheap").1 = false →
        (route cfg gcfg st today now "navigator" (.str q) opts).1
          = getFallbackResponse "navigator") := by
  refine ⟨?_, ?_, ?_⟩
  · intro st tokens type
    simp only [canMakeCall]
    by_cases h1 : (resetDailyCountersIfNeeded st today).dailyTokens + tokens
        > gcfg.maxDailyTokens
    · rw [if_pos h1]
      constructor
      · intro hfalse
        simp at hfalse
      · intro hrhs
        omega
    · rw [if_neg h1]
      by_cases h2 : tokens > (if type = "expensive" then gcfg.maxExpensiveTokens
          else gcfg.maxCheapTokens)
      · rw [if_pos h2]
        constructor
        · intro hfalse
          simp at hfalse
        · intro hrhs
          exact absurd hrhs.1 (by omega)
      · rw [if_neg h2]
        constructor
        · intro _
          exact ⟨by omega, by omega⟩
        · intro _
          rfl
  · intro c hc0 hc
    exact cheapCallResults_exhaust gcfg today c hc0 hc (gcfg.maxDailyTokens / c) 0
      (initialStats today) rfl (by simp [initialStats]) (by omega)
  · intro cfg st now q opts hq hen hmiss hrej
    rcases hcm : canMakeCall gcfg
        (cacheGet st now (routeCacheKey "navigator" (.str q) opts)).2.stats today
        (cfg.AI_MAX_TOKENS_CHEAP.getD 100) "cheap" with ⟨bb, st1⟩
    have hbb : bb = false := by
      rw [hcm] at hrej
      exact hrej
    subst hbb
    have hwb : withBudget gcfg
          (cacheGet st now (routeCacheKey "navigator" (.str q) opts)).2.stats today
          ("cheap-" ++ "navigator") (.ok (cheapModelResult cfg "navigator"))
          (cfg.AI_MAX_TOKENS_CHEAP.getD 100) "cheap"
        = (.error (budgetErrorMsg gcfg st1 ("cheap-" ++ "navigator")), st1, false) := by
      unfold withBudget
      rw [hcm]
    have hcheap : tryCheapModel cfg gcfg
          (cacheGet st now (routeCacheKey "navigator" (.str q) opts)).2.stats today "navigator"
        = (.error (budgetErrorMsg gcfg st1 ("cheap-" ++ "navigator")), st1, false) := by
      unfold tryCheapModel
      rw [hen]
      exact hwb
    have hcore : routeCore cfg gcfg
          (cacheGet st now (routeCacheKey "navigator" (.str q) opts)).2.stats today now
          "navigator" (.str q)
        = (.error (budgetErrorMsg gcfg st1 ("cheap-" ++ "navigator")), st1, 1) := by
      unfold routeCore
      rw [show tryRulesFirst now "navigator" (.str q) = .ok navigatorUncertainResult from hq]
      dsimp only
      rw [if_pos (by rw [hen]; rfl), hcheap]
    simp only [route, hmiss, hcore]

/-- C5 witness: with the default limits, 100-token cheap calls from zero
usage admit exactly 100 times before the 101st is rejected; the admission
predicate holds at a concrete in-budget call; and a concrete over-budget
navigator escalation returns the navigator fallback. -/
theorem C5_budget_enforcement_witness :
    (canMakeCall {} (initialStats "d") "d" 100 "cheap").1 = true
    ∧ cheapCallResults {} "d" 100 (initialStats "d") 101
        = List.replicate 100 true ++ [false]
    ∧ (route { AI_ENABLE := true, OPENAI_API_KEY := "k" } {}
          { cache := [], stats := { initialStats "d" with dailyTokens := 10000 } }
          "d" 0 "navigator" (.str "xyz") "").1
        = getFallbackResponse "navigator" := by
  have h := C5_budget_enforcement {} "d"
  refine ⟨(h.1 (initialStats "d") 100 "cheap").mpr (by decide), ?_, ?_⟩
  · have hb := h.2.1 100 (by decide) (by decide)
    simpa using hb
  · exact h.2.2 { AI_ENABLE := true, OPENAI_API_KEY := "k" }
      { cache := [], stats := { initialStats "d" with dailyTokens := 10000 } }
      0 "xyz" "" rfl rfl rfl (by decide)
